import Mathlib

/-!
# On-chain portfolio client: wallet session manager and portfolio view controller

A shallow embedding of `src/js/wallet.js` and `src/js/main.js`.

* Module-scoped variables and the DOM nodes the two modules touch are fields of
  one record, `World`.
* Every handler is a function `World → inputs → World`; the result of each
  awaited call into the wallet provider or the contract is an explicit input of
  the handler (an outcome), so a handler is modelled as running to completion.
* Calls that leave the page (contract calls, wallet requests, clipboard writes,
  window events, notifications) are appended to `World.trace` in program order.
* JavaScript `null` and `undefined` are `none`; a value is truthy when it is a
  non-empty string.
* The name `ethers` is taken to be in scope in `main.js`; the functions of the
  library and of the platform that the modules call are the fields of `Lib` or
  explicit outcomes.
* The timer that hides a notification after four seconds is not modelled: the
  field `notification` holds the notification shown last.
-/

namespace OnchainPortfolio

/-! ## JavaScript primitives -/

/-- Truthiness of a string-or-null value: `null`, `undefined` and `""` are falsy. -/
def truthy : Option String → Bool
  | some s => !(s == "")
  | none => false

/-- White space and line terminators removed by `String.prototype.trim`. -/
def isJsWhiteSpace (c : Char) : Bool :=
  let n := c.toNat
  n == 0x09 || n == 0x0A || n == 0x0B || n == 0x0C || n == 0x0D || n == 0x20 ||
  n == 0xA0 || n == 0x1680 || (0x2000 ≤ n && n ≤ 0x200A) || n == 0x2028 ||
  n == 0x2029 || n == 0x202F || n == 0x205F || n == 0x3000 || n == 0xFEFF

/-- The method `String.prototype.trim`. -/
def jsTrim (s : String) : String :=
  String.mk ((s.toList.dropWhile isJsWhiteSpace).reverse.dropWhile isJsWhiteSpace).reverse

/-- Value of a character as a digit in radix 16, if it is one. -/
def hexDigit (c : Char) : Option Nat :=
  let n := c.toNat
  if 48 ≤ n ∧ n ≤ 57 then some (n - 48)
  else if 97 ≤ n ∧ n ≤ 102 then some (n - 87)
  else if 65 ≤ n ∧ n ≤ 70 then some (n - 55)
  else none

/-- Longest run of leading radix-16 digits, as digit values. -/
def hexRun : List Char → List Nat
  | [] => []
  | c :: cs =>
    match hexDigit c with
    | some d => d :: hexRun cs
    | none => []

/-- Removes an optional leading sign; the boolean tells whether it was a minus. -/
def stripSign : List Char → Bool × List Char
  | c :: cs => if c.toNat = 45 then (true, cs) else if c.toNat = 43 then (false, cs) else (false, c :: cs)
  | [] => (false, [])

/-- Removes a leading `0x` or `0X`. -/
def stripHexMark : List Char → List Char
  | a :: b :: cs => if a.toNat = 48 ∧ (b.toNat = 120 ∨ b.toNat = 88) then cs else a :: b :: cs
  | cs => cs

/-- The call `parseInt(s, 16)`; `none` is `NaN`. -/
def parseInt16 (s : String) : Option Int :=
  let body := stripSign (s.toList.dropWhile isJsWhiteSpace)
  let digits := hexRun (stripHexMark body.2)
  if digits.isEmpty then none
  else
    let v : Nat := digits.foldl (fun acc d => acc * 16 + d) 0
    some (if body.1 then -(v : Int) else (v : Int))

/-- Largest time value, in milliseconds, of a valid `Date`. -/
def maxDateMs : Nat := 8640000000000000

/-- Functions of the platform and of the ethers library that the modules call
and whose bodies are not part of the repository. -/
structure Lib where
  /-- The function `ethers.isAddress`. -/
  isAddress : String → Bool
  /-- The method `String.prototype.toLowerCase`. -/
  toLowerCase : String → String
  /-- The method `Date.prototype.toISOString` on a valid time value. -/
  toISOString : Nat → String
  /-- The method `Date.prototype.toLocaleString` on a valid time value. -/
  toLocaleString : Nat → String
  /-- Lower-casing never empties a string. -/
  toLowerCase_nonempty : ∀ s : String, s ≠ "" → toLowerCase s ≠ ""

/-! ## Data model -/

/-- An integer as JavaScript holds it: a Number or a BigInt. A Number `n` stands
for the double nearest to `n`; every product below is compared with
`maxDateMs`, which is less than 2^53, so rounding never changes a comparison. -/
inductive JsInt where
  | number (n : Nat)
  | bigint (n : Nat)
deriving DecidableEq

/-- The integer held, whatever its representation. -/
def JsInt.toNat : JsInt → Nat
  | .number n => n
  | .bigint n => n

/-- The expression `x * 1000` for a Number literal 1000; `none` when it throws a
`TypeError` because `x` is a BigInt. -/
def timesThousand : JsInt → Option Nat
  | .number n => some (n * 1000)
  | .bigint _ => none

/-- The comparison `x !== m` for a Number `m`; `null` and a BigInt differ from
every Number. -/
def strictNeNumber : Option JsInt → Nat → Bool
  | some (.number n), m => !(n == m)
  | _, _ => true

/-- One record returned by `getAchievements`. The ABI declares `timestamp` as
`uint256`; ethers 6, the version `wallet.js` imports, decodes it as a BigInt. -/
structure Achievement where
  title : String
  description : String
  timestamp : JsInt
deriving DecidableEq

/-- The element built by `createAchievementCard`. -/
structure Card where
  ariaLabel : String
  title : String
  description : String
  dateTime : String
  timeText : String
deriving DecidableEq

/-- A child of the `achievementsList` element. -/
inductive Node where
  | para (text : String)
  | card (c : Card)
deriving DecidableEq

/-- A window event raised by the wallet module. -/
inductive AppEvent where
  | accountChanged (detail : String)
  | networkChanged
deriving DecidableEq

/-- Calls that leave the page, and notifications, in program order. -/
inductive Effect where
  | notify (message : String) (type : String)
  | walletRequest (method : String) (arg : String)
  | dispatch (e : AppEvent)
  | addAchievement (title : String) (description : String)
  | txWait
  | getAchievements (user : String)
  | totalUsers
  | totalAchievements
  | totalTxns
  | clipboardWrite (text : String)
  | formReset
deriving DecidableEq

/-- The notification element after `showNotification`. -/
structure Notification where
  message : String
  type : String
deriving DecidableEq

/-- Module state of `wallet.js` and `main.js` and the DOM state they write. -/
structure World where
  /-- Whether `window.ethereum` exists. -/
  ethereum : Bool
  /-- Whether `provider` of `wallet.js` is defined. -/
  provider : Bool
  /-- Whether `signer` of `wallet.js` is a signer handle. -/
  signer : Bool
  /-- The variable `userAddress` of `wallet.js`. -/
  userAddress : Option String
  /-- The session-storage item `connectedAddress`. -/
  storedAddress : Option String
  /-- The attribute `statusDot.className`. -/
  statusClass : String
  /-- The text of the connect button. -/
  connectBtnText : String
  /-- How many times `setupListeners` has registered its two handlers. -/
  walletListeners : Nat
  /-- Whether `contract` of `main.js` is defined. -/
  contract : Bool
  /-- The variable `currentUserAddress` of `main.js`. -/
  currentUserAddress : Option String
  /-- The variable `achievementsCache`. -/
  achievementsCache : List Achievement
  /-- Children of the `achievementsList` element. -/
  achievementsList : List Node
  /-- The property `addAchievementBtn.disabled`. -/
  addBtnDisabled : Bool
  /-- The property `addAchievementBtn.title`. -/
  addBtnTitle : String
  /-- Whether the modal carries the `hidden` attribute. -/
  modalHidden : Bool
  /-- Text of the `totalUsers` span. -/
  totalUsersText : String
  /-- Text of the `totalAchievements` span. -/
  totalAchievementsText : String
  /-- Text of the `totalTxns` span. -/
  totalTxnsText : String
  /-- Whether `init` has registered the listeners of `main.js`. -/
  viewListeners : Bool
  /-- The notification currently shown, if any. -/
  notification : Option Notification
  /-- Content of the clipboard, when a write succeeded. -/
  clipboard : Option String
  /-- External calls and notifications so far. -/
  trace : List Effect

/-- The constant `BASE_SEPOLIA_CHAIN_ID`. -/
def BASE_SEPOLIA_CHAIN_ID : Nat := 84531

/-- The chain id literal passed to `wallet_switchEthereumChain`. -/
def switchChainIdHex : String := "0x14977"

/-! ## Shared helpers of the two modules -/

/-- Appends one effect to the trace. -/
@[simp]
def logEffect (w : World) (e : Effect) : World :=
  { w with trace := w.trace ++ [e] }

/-- The function `showNotification` (the two modules define it identically). -/
@[simp]
def showNotification (w : World) (message : String) (type : String) : World :=
  { w with notification := some ⟨message, type⟩, trace := w.trace ++ [Effect.notify message type] }

/-- Class name left on the status dot by `setStatus`. -/
def statusClassOf (status : String) : String :=
  if status = "connecting" then "status-connecting"
  else if status = "connected" then "status-connected"
  else if status = "disconnected" then "status-disconnected"
  else if status = "error" then "status-error"
  else if status = "no-metamask" then "status-no-metamask"
  else ""

/-- The function `setStatus`. -/
@[simp]
def setStatus (w : World) (status : String) : World :=
  { w with statusClass := statusClassOf status }

/-- Text put on the connect button by `updateConnectBtn`. -/
def connectBtnTextOf (address : Option String) : String :=
  match address with
  | some a =>
    if a == "" then "Connect Wallet"
    else String.mk (a.toList.take 6) ++ "..." ++ String.mk (a.toList.drop (a.toList.length - 4))
  | none => "Connect Wallet"

/-- The function `updateConnectBtn`. -/
@[simp]
def updateConnectBtn (w : World) (address : Option String) : World :=
  { w with connectBtnText := connectBtnTextOf address }

/-- The function `setupListeners`: one more registration of the two handlers. -/
@[simp]
def setupListeners (w : World) : World :=
  { w with walletListeners := w.walletListeners + 1 }

/-! ## Portfolio view controller (`main.js`) -/

/-- Replaces the children of the `achievementsList` element. -/
@[simp]
def setAchievementsList (w : World) (nodes : List Node) : World :=
  { w with achievementsList := nodes }

/-- Assigns the variable `achievementsCache`. -/
@[simp]
def setAchievementsCache (w : World) (l : List Achievement) : World :=
  { w with achievementsCache := l }

/-- Sets the text of the three counter spans. -/
@[simp]
def setStatTexts (w : World) (users achs txns : String) : World :=
  { w with totalUsersText := users, totalAchievementsText := achs, totalTxnsText := txns }

/-- The function `openModal`. -/
@[simp]
def openModal (w : World) : World :=
  { w with modalHidden := false }

/-- The function `closeModal`. -/
@[simp]
def closeModal (w : World) : World :=
  { w with modalHidden := true, trace := w.trace ++ [Effect.formReset] }

/-- The function `createAchievementCard`; `none` when it throws: a `TypeError`
from `achievement.timestamp * 1000` on a BigInt timestamp, or a `RangeError`
from `toISOString` when the time value is not a valid date. -/
def createAchievementCard (lib : Lib) (achievement : Achievement) : Option Card :=
  match timesThousand achievement.timestamp with
  | none => none
  | some ms =>
    if ms ≤ maxDateMs then
      some
        { ariaLabel := "Achievement titled " ++ achievement.title
          title := achievement.title
          description := achievement.description
          dateTime := lib.toISOString ms
          timeText := lib.toLocaleString ms }
    else none

/-- The `forEach` loop of `fetchAndRenderAchievements`: appends one card per
record to the children so far; `none` when building a card throws. -/
def appendCards (lib : Lib) : List Node → List Achievement → Option (List Node)
  | acc, [] => some acc
  | acc, a :: rest =>
    match createAchievementCard lib a with
    | some c => appendCards lib (acc ++ [Node.card c]) rest
    | none => none

/-- The `try` block of `fetchAndRenderAchievements` once `getAchievements` has
returned the list `l`. -/
def renderAchievements (lib : Lib) (w : World) (l : List Achievement) : World :=
  let w1 := setAchievementsCache w l
  if l.length = 0 then setAchievementsList w1 [Node.para "No achievements found."]
  else
    match appendCards lib [] l with
    | some nodes => setAchievementsList w1 nodes
    | none => setAchievementsList w1 [Node.para "Error loading achievements."]

/-- The function `fetchAndRenderAchievements`; `result` is what the awaited
`contract.getAchievements` call yields, `none` when it rejects. -/
def fetchAndRenderAchievements (lib : Lib) (w : World)
    (result : Option (List Achievement)) : World :=
  if !truthy w.currentUserAddress then
    setAchievementsList w [Node.para "Please connect your wallet or provide a user address in URL."]
  else
    let w1 := setAchievementsList w [Node.para "Loading achievements..."]
    if !w1.contract then setAchievementsList w1 [Node.para "Error loading achievements."]
    else
      let w2 := logEffect w1 (Effect.getAchievements (w1.currentUserAddress.getD ""))
      match result with
      | none => setAchievementsList w2 [Node.para "Error loading achievements."]
      | some l => renderAchievements lib w2 l

/-- The three reads of `fetchGlobalStats`, started together. -/
@[simp]
def startStatReads (w : World) : World :=
  logEffect (logEffect (logEffect w Effect.totalUsers) Effect.totalAchievements) Effect.totalTxns

/-- The function `fetchGlobalStats`; each argument is what one of the three
reads joined by `Promise.all` yields, `none` when that read rejects. -/
def fetchGlobalStats (w : World) (users achs txns : Option Nat) : World :=
  if !w.contract then setStatTexts w "?" "?" "?"
  else
    match users, achs, txns with
    | some u, some a, some t =>
      setStatTexts (startStatReads w) (toString u) (toString a) (toString t)
    | _, _, _ => setStatTexts (startStatReads w) "?" "?" "?"

/-- What happens to a submitted transaction. -/
inductive TxOutcome where
  /-- The call `contract.addAchievement` rejects. -/
  | sendFails
  /-- The call `tx.wait` rejects. -/
  | waitFails
  /-- The transaction is confirmed; the fields are the results of the reads
  that follow. -/
  | confirmed (achievements : Option (List Achievement)) (users achs txns : Option Nat)

/-- The `try` block of `onAddAchievement` with its `catch`, for trimmed values. -/
def sendAchievement (lib : Lib) (w : World) (title description : String)
    (outcome : TxOutcome) : World :=
  let w1 := showNotification w "Sending transaction..." "info"
  if !w1.contract then showNotification w1 "Transaction failed or rejected" "error"
  else
    let w2 := logEffect w1 (Effect.addAchievement title description)
    match outcome with
    | .sendFails => showNotification w2 "Transaction failed or rejected" "error"
    | .waitFails => showNotification (logEffect w2 Effect.txWait) "Transaction failed or rejected" "error"
    | .confirmed r u a t =>
      let w3 := showNotification (logEffect w2 Effect.txWait) "Achievement added!" "success"
      fetchGlobalStats (fetchAndRenderAchievements lib (closeModal w3) r) u a t

/-- The function `onAddAchievement`; `title` and `description` are the values of
the two form fields. -/
def onAddAchievement (lib : Lib) (w : World) (title description : String)
    (outcome : TxOutcome) : World :=
  if !truthy w.currentUserAddress then
    closeModal (showNotification w "Connect your wallet to add achievements" "error")
  else if jsTrim title == "" || jsTrim description == "" then
    showNotification w "Please fill all fields" "warning"
  else sendAchievement lib w (jsTrim title) (jsTrim description) outcome

/-- The URL built by `onSharePortfolio`. -/
def shareURL (w : World) (baseURL : String) : String :=
  if truthy w.currentUserAddress then baseURL ++ "?user=" ++ w.currentUserAddress.getD ""
  else baseURL

/-- Content of the clipboard after a write of `text` that resolves or rejects. -/
@[simp]
def writeClipboard (w : World) (text : String) (copied : Bool) : World :=
  { w with
    trace := w.trace ++ [Effect.clipboardWrite text]
    clipboard := if copied then some text else w.clipboard }

/-- The function `onSharePortfolio`; `baseURL` is `origin + pathname` and
`copied` tells whether the clipboard write resolves. -/
def onSharePortfolio (w : World) (baseURL : String) (copied : Bool) : World :=
  let w1 := writeClipboard w (shareURL w baseURL) copied
  if copied then showNotification w1 "Portfolio URL copied to clipboard!" "success"
  else showNotification w1 "Failed to copy URL" "error"

/-- Assigns the variable `currentUserAddress`. -/
@[simp]
def setCurrentUserAddress (w : World) (address : Option String) : World :=
  { w with currentUserAddress := address }

/-- The `accountChanged` listener registered by `init`. -/
def accountChangedListener (lib : Lib) (w : World) (detail : String)
    (result : Option (List Achievement)) : World :=
  fetchAndRenderAchievements lib (setCurrentUserAddress w (some detail)) result

/-- The `networkChanged` listener registered by `init`. -/
def networkChangedListener (w : World) (users achs txns : Option Nat) : World :=
  fetchGlobalStats w users achs txns

/-- The `keydown` listener registered by `init`. -/
def keydownListener (w : World) (key : String) : World :=
  if key == "Escape" && !w.modalHidden then closeModal w else w

/-- The call `window.dispatchEvent`: records the event and runs the matching
listener of `main.js` when `init` has registered it. The extra arguments are the
results of the reads the listener awaits. -/
def dispatchEvent (lib : Lib) (w : World) (e : AppEvent)
    (result : Option (List Achievement)) (users achs txns : Option Nat) : World :=
  let w1 := logEffect w (Effect.dispatch e)
  if w1.viewListeners then
    match e with
    | .accountChanged detail => accountChangedListener lib w1 detail result
    | .networkChanged => networkChangedListener w1 users achs txns
  else w1

/-! ## Wallet session manager (`wallet.js`) -/

/-- Assignments to `provider`, `signer`, `userAddress` and the session-storage
item of the wallet module. -/
@[simp]
def setWallet (w : World) (provider signer : Bool) (userAddress storedAddress : Option String) :
    World :=
  { w with
    provider := provider
    signer := signer
    userAddress := userAddress
    storedAddress := storedAddress }

/-- First half of `promptNetworkSwitch`: the switch request is sent. -/
@[simp]
def promptNetworkSwitchSend (w : World) : World :=
  logEffect w (Effect.walletRequest "wallet_switchEthereumChain" switchChainIdHex)

/-- Second half of `promptNetworkSwitch`: the request has settled; `switched`
tells whether it resolved. -/
def promptNetworkSwitchSettle (w : World) (switched : Bool) : World :=
  if switched then showNotification w "Switched to Base Sepolia network" "success"
  else setStatus (showNotification w "Please switch to Base Sepolia network" "error") "error"

/-- The function `promptNetworkSwitch`, awaited. -/
def promptNetworkSwitch (w : World) (switched : Bool) : World :=
  promptNetworkSwitchSettle (promptNetworkSwitchSend w) switched

/-- What the wallet answers during `connectWallet`. -/
inductive ConnectOutcome where
  /-- The request `eth_requestAccounts` rejects. -/
  | requestRejected
  /-- The call `provider.getSigner` rejects. -/
  | signerFails
  /-- The call `signer.getAddress` rejects. -/
  | addressFails
  /-- Access is granted for `address`; `chainId` is the result of `getChainId`
  (`none` for `null`) and `switched` the fate of a switch request, if one is made. -/
  | granted (address : String) (chainId : Option JsInt) (switched : Bool)

/-- The `catch` block of `connectWallet`. -/
def connectFailed (w : World) : World × Option String :=
  (showNotification (setStatus w "disconnected") "Connection failed or rejected" "error", none)

/-- The function `connectWallet`, with its return value. -/
def connectWallet (w : World) (outcome : ConnectOutcome) : World × Option String :=
  if !w.ethereum then
    (setStatus (showNotification w "MetaMask not found. Please install it." "error") "no-metamask",
      none)
  else
    let w1 := setWallet (setStatus w "connecting") true w.signer w.userAddress w.storedAddress
    let w2 := logEffect w1 (Effect.walletRequest "eth_requestAccounts" "")
    match outcome with
    | .requestRejected => connectFailed w2
    | .signerFails => connectFailed w2
    | .addressFails => connectFailed (setWallet w2 true true w2.userAddress w2.storedAddress)
    | .granted address chainId switched =>
      let w3 := setWallet w2 true true (some address) (some address)
      let w4 :=
        if strictNeNumber chainId BASE_SEPOLIA_CHAIN_ID then promptNetworkSwitch w3 switched else w3
      (setupListeners (updateConnectBtn (setStatus w4 "connected") (some address)), some address)

/-- The `accountsChanged` handler registered by `setupListeners`. -/
def onAccountsChanged (lib : Lib) (w : World) (accounts : List String)
    (result : Option (List Achievement)) : World :=
  match accounts with
  | [] =>
    let w1 := setWallet w w.provider w.signer none w.storedAddress
    showNotification (setStatus (updateConnectBtn w1 none) "disconnected") "Wallet disconnected" "warning"
  | a :: _ =>
    let w1 := setWallet w w.provider w.signer (some a) (some a)
    let w2 := showNotification (setStatus (updateConnectBtn w1 (some a)) "connected") "Account changed" "info"
    dispatchEvent lib w2 (AppEvent.accountChanged a) result none none none

/-- The `chainChanged` handler registered by `setupListeners`. The switch request
it starts is not awaited: the handler finishes first and the request settles
afterwards. -/
def onChainChanged (lib : Lib) (w : World) (chainId : String) (switched : Bool)
    (users achs txns : Option Nat) : World :=
  if parseInt16 chainId ≠ some (BASE_SEPOLIA_CHAIN_ID : Int) then
    let w1 := promptNetworkSwitchSend w
    let w2 := showNotification (setStatus w1 "error") "Please switch to Base Sepolia network" "error"
    promptNetworkSwitchSettle w2 switched
  else
    let w1 := showNotification (setStatus w "connected") "Network changed to Base Sepolia" "success"
    dispatchEvent lib w1 AppEvent.networkChanged none users achs txns

/-- The click listener of the connect button. -/
def onConnectClick (w : World) (outcome : ConnectOutcome) (copied : Bool) : World :=
  if !truthy w.userAddress then (connectWallet w outcome).1
  else showNotification (writeClipboard w (w.userAddress.getD "") copied) "Wallet address copied!" "success"

/-- The function `initWallet`; `signerOk` tells whether `provider.getSigner`
resolved (otherwise `signer` becomes `null`). -/
def initWallet (w : World) (signerOk : Bool) : World :=
  if w.ethereum then
    let w1 := setWallet w true signerOk w.storedAddress w.storedAddress
    if truthy w1.userAddress then
      setupListeners (setStatus (updateConnectBtn w1 w1.userAddress) "connected")
    else setStatus w1 "disconnected"
  else setStatus w "no-metamask"

/-- Whether the URL parameter is present and a well-formed address. -/
def validQuery (lib : Lib) (queryUser : Option String) : Bool :=
  truthy queryUser && lib.isAddress (queryUser.getD "")

/-- The read-only branch of `init`: the target is the lower-cased URL address
and the add-achievement button is disabled. -/
@[simp]
def enterReadOnly (w : World) (address : String) : World :=
  { w with
    currentUserAddress := some address
    addBtnDisabled := true
    addBtnTitle := "Adding achievements disabled in read-only mode" }

/-- The construction of the contract handle in `init`. -/
@[simp]
def setContract (w : World) : World :=
  { w with contract := true }

/-- The registration of the listeners of `main.js` at the end of `init`. -/
@[simp]
def registerViewListeners (w : World) : World :=
  { w with viewListeners := true }

/-- The function `init`; `queryUser` is the value of the URL parameter `user`
(`none` when absent) and the remaining arguments are the results of the reads. -/
def init (lib : Lib) (w : World) (signerOk : Bool) (queryUser : Option String)
    (result : Option (List Achievement)) (users achs txns : Option Nat) : World :=
  let w1 := initWallet w signerOk
  if !w1.provider then showNotification w1 "Ethereum provider not found" "error"
  else
    let w2 := setContract w1
    let w3 :=
      if validQuery lib queryUser then enterReadOnly w2 (lib.toLowerCase (queryUser.getD ""))
      else setCurrentUserAddress w2 w2.userAddress
    let w4 :=
      if !truthy w3.currentUserAddress then
        showNotification w3 "Connect your wallet to view achievements" "warning"
      else w3
    registerViewListeners
      (fetchGlobalStats (fetchAndRenderAchievements lib w4 result) users achs txns)

/-! ## The page as a transition system -/

/-- What the page finds when its scripts start: the wallet extension, the
session storage and the initial markup. -/
structure PageEnv where
  ethereum : Bool
  storedAddress : Option String
  statusClass : String
  connectBtnText : String
  addBtnDisabled : Bool
  addBtnTitle : String
  modalHidden : Bool
  achievementsList : List Node
  totalUsersText : String
  totalAchievementsText : String
  totalTxnsText : String

/-- State when the two modules have been evaluated and `init` has not run yet. -/
def pageLoad (env : PageEnv) : World :=
  { ethereum := env.ethereum
    provider := false
    signer := false
    userAddress := none
    storedAddress := env.storedAddress
    statusClass := env.statusClass
    connectBtnText := env.connectBtnText
    walletListeners := 0
    contract := false
    currentUserAddress := none
    achievementsCache := []
    achievementsList := env.achievementsList
    addBtnDisabled := env.addBtnDisabled
    addBtnTitle := env.addBtnTitle
    modalHidden := env.modalHidden
    totalUsersText := env.totalUsersText
    totalAchievementsText := env.totalAchievementsText
    totalTxnsText := env.totalTxnsText
    viewListeners := false
    notification := none
    clipboard := none
    trace := [] }

/-- Something that happens to the page after `init`, with the results of the
calls its handlers await. -/
inductive Event where
  | connectClick (outcome : ConnectOutcome) (copied : Bool)
  | accountsChanged (accounts : List String) (result : Option (List Achievement))
  | chainChanged (chainId : String) (switched : Bool) (users achs txns : Option Nat)
  | addClick
  | closeClick
  | keydown (key : String)
  | submit (title description : String) (outcome : TxOutcome)
  | share (baseURL : String) (copied : Bool)

/-- Runs `f` once per registration of the wallet handlers. -/
def perRegistration (w : World) (f : World → World) : World :=
  Nat.iterate f w.walletListeners w

/-- Delivery of one event to the handlers registered for it. -/
def step (lib : Lib) (w : World) : Event → World
  | .connectClick outcome copied => onConnectClick w outcome copied
  | .accountsChanged accounts result =>
    perRegistration w (fun v => onAccountsChanged lib v accounts result)
  | .chainChanged chainId switched users achs txns =>
    perRegistration w (fun v => onChainChanged lib v chainId switched users achs txns)
  | .addClick => if w.viewListeners && !w.addBtnDisabled then openModal w else w
  | .closeClick => if w.viewListeners then closeModal w else w
  | .keydown key => if w.viewListeners then keydownListener w key else w
  | .submit title description outcome =>
    if w.viewListeners then onAddAchievement lib w title description outcome else w
  | .share baseURL copied => if w.viewListeners then onSharePortfolio w baseURL copied else w

/-- Delivery of a sequence of events, in order. -/
def run (lib : Lib) (w : World) (events : List Event) : World :=
  events.foldl (step lib) w

/-- Whether the event is a wallet account change to a non-empty account list. -/
def Event.switchesAccount : Event → Bool
  | .accountsChanged (_ :: _) _ => true
  | _ => false

/-- States the page can be in once `init` has run on a freshly loaded page. -/
def Reachable (lib : Lib) (w : World) : Prop :=
  ∃ (env : PageEnv) (signerOk : Bool) (queryUser : Option String)
    (result : Option (List Achievement)) (users achs txns : Option Nat) (events : List Event),
    w = run lib (init lib (pageLoad env) signerOk queryUser result users achs txns) events

/-- Whether an effect is a call of `contract.addAchievement`. -/
def Effect.isAddCall : Effect → Bool
  | .addAchievement _ _ => true
  | _ => false

/-- Whether an effect is one of the contract reads. -/
def Effect.isRead : Effect → Bool
  | .getAchievements _ => true
  | .totalUsers => true
  | .totalAchievements => true
  | .totalTxns => true
  | _ => false

/-- The calls of `contract.addAchievement` in a trace. -/
def addCalls (trace : List Effect) : List Effect :=
  trace.filter Effect.isAddCall

/-- The contract reads in a trace. -/
def readCalls (trace : List Effect) : List Effect :=
  trace.filter Effect.isRead

/-- Whether `connectWallet` ends in its `catch` block. -/
def ConnectOutcome.isFailure : ConnectOutcome → Bool
  | .granted _ _ _ => false
  | _ => true

/-- The fields of the view that only `init` and the `accountChanged` listener
write: the contract handle, the listener registration, the disabled flag of the
add-achievement button and the target address. -/
def SameView (w v : World) : Prop :=
  v.contract = w.contract ∧ v.viewListeners = w.viewListeners ∧
    v.addBtnDisabled = w.addBtnDisabled ∧ v.currentUserAddress = w.currentUserAddress

/-- The fields of the wallet module that the view controller never writes. -/
def SameWallet (w v : World) : Prop :=
  v.userAddress = w.userAddress ∧ v.storedAddress = w.storedAddress ∧
    v.walletListeners = w.walletListeners ∧ v.statusClass = w.statusClass

/-- Whether the timestamp is a Number whose time value `timestamp * 1000` is a
valid date. -/
def Achievement.datable (a : Achievement) : Prop :=
  ∃ n, a.timestamp = JsInt.number n ∧ n * 1000 ≤ maxDateMs

/-- The card shown for a record whose time value is a valid date. -/
def cardOf (lib : Lib) (a : Achievement) : Node :=
  Node.card
    { ariaLabel := "Achievement titled " ++ a.title
      title := a.title
      description := a.description
      dateTime := lib.toISOString (a.timestamp.toNat * 1000)
      timeText := lib.toLocaleString (a.timestamp.toNat * 1000) }

/-- Whether a child of the list is an achievement card. -/
def Node.isCard : Node → Bool
  | .card _ => true
  | .para _ => false

/-! ## Concrete inputs for evaluation -/

/-- ASCII lower-casing; it is `toLowerCase` on ASCII strings. -/
def asciiLower (s : String) : String :=
  String.mk (s.toList.map Char.toLower)

/-- Accepts `0x` followed by 40 hexadecimal digits whose letters are all lower
case or all upper case; `ethers.isAddress` accepts each of these. -/
def isPlainHexAddress (s : String) : Bool :=
  match s.toList with
  | a :: b :: rest =>
    a.toNat == 48 && b.toNat == 120 && rest.length == 40 &&
      (rest.all (fun c => (48 ≤ c.toNat && c.toNat ≤ 57) || (97 ≤ c.toNat && c.toNat ≤ 102)) ||
        rest.all (fun c => (48 ≤ c.toNat && c.toNat ≤ 57) || (65 ≤ c.toNat && c.toNat ≤ 70)))
  | _ => false

/-- A library instance for evaluating the model: ASCII lower-casing, addresses
without mixed case, and time values printed as their millisecond count. -/
def evalLib : Lib :=
  { isAddress := isPlainHexAddress
    toLowerCase := asciiLower
    toISOString := fun ms => toString ms
    toLocaleString := fun ms => toString ms
    toLowerCase_nonempty := by
      intro s h hl
      have h1 : (asciiLower s).data = [] := by rw [hl]
      have h2 : s.data = [] := by simpa [asciiLower] using h1
      exact h (String.ext h2) }

/-- A page with a wallet extension, nothing in session storage, an enabled
add-achievement button and a hidden modal. -/
def freshPage : PageEnv :=
  { ethereum := true
    storedAddress := none
    statusClass := ""
    connectBtnText := "Connect Wallet"
    addBtnDisabled := false
    addBtnTitle := ""
    modalHidden := true
    achievementsList := []
    totalUsersText := ""
    totalAchievementsText := ""
    totalTxnsText := "" }

/-- An address as `signer.getAddress` returns it (checksummed). -/
def aliceAddress : String := "0x52908400098527886E0F7030069857D2E4169EE7"

/-- A second address, in lower case. -/
def bobAddress : String := "0xde709f2102306220921060314715629080e2fb77"

/-- A third address, in lower case. -/
def carolAddress : String := "0x27b1fdb04752bbc536007a920d24acb045561c26"

/-- The page of `freshPage` in a tab whose session storage holds `aliceAddress`. -/
def returningPage : PageEnv :=
  { freshPage with storedAddress := some aliceAddress }

/-- The view after `init` on `freshPage` without a URL parameter: no session,
no target address, three global counters shown. -/
def guestView : World :=
  init evalLib (pageLoad freshPage) false none none (some 1) (some 2) (some 3)

/-- The view after `init` on `returningPage` without a URL parameter: the
session of `aliceAddress` is restored and she is the target. -/
def aliceView : World :=
  init evalLib (pageLoad returningPage) true none (some []) (some 1) (some 2) (some 3)

/-- The view after `init` on `freshPage` with `?user=` set to `bobAddress`:
read-only mode without a session. -/
def readOnlyView : World :=
  init evalLib (pageLoad freshPage) false (some bobAddress) (some []) (some 1) (some 2) (some 3)

/-- The view of `aliceView` after the wallet has reported zero accounts and the
add-achievement button was clicked. -/
def disconnectedView : World :=
  run evalLib aliceView [Event.accountsChanged [] none, Event.addClick]

/-! ## Frame lemmas: which fields each handler leaves alone -/

theorem renderAchievements_sameView (lib : Lib) (w : World) (l : List Achievement) :
    SameView w (renderAchievements lib w l) := by
  unfold renderAchievements
  by_cases hl : l.length = 0
  · simp [hl, SameView]
  · cases hA : appendCards lib [] l <;> simp [hl, hA, SameView]

@[simp]
theorem renderAchievements_contract (lib : Lib) (w : World) (l : List Achievement) :
    (renderAchievements lib w l).contract = w.contract :=
  (renderAchievements_sameView lib w l).1

@[simp]
theorem renderAchievements_viewListeners (lib : Lib) (w : World) (l : List Achievement) :
    (renderAchievements lib w l).viewListeners = w.viewListeners :=
  (renderAchievements_sameView lib w l).2.1

@[simp]
theorem renderAchievements_addBtnDisabled (lib : Lib) (w : World) (l : List Achievement) :
    (renderAchievements lib w l).addBtnDisabled = w.addBtnDisabled :=
  (renderAchievements_sameView lib w l).2.2.1

@[simp]
theorem renderAchievements_currentUserAddress (lib : Lib) (w : World) (l : List Achievement) :
    (renderAchievements lib w l).currentUserAddress = w.currentUserAddress :=
  (renderAchievements_sameView lib w l).2.2.2

theorem fetchAndRenderAchievements_sameView (lib : Lib) (w : World)
    (r : Option (List Achievement)) : SameView w (fetchAndRenderAchievements lib w r) := by
  cases hT : truthy w.currentUserAddress <;> cases hC : w.contract <;> cases r <;>
    simp [fetchAndRenderAchievements, hT, hC, SameView]

@[simp]
theorem fetchAndRenderAchievements_contract (lib : Lib) (w : World) (r : Option (List Achievement)) :
    (fetchAndRenderAchievements lib w r).contract = w.contract :=
  (fetchAndRenderAchievements_sameView lib w r).1

@[simp]
theorem fetchAndRenderAchievements_viewListeners (lib : Lib) (w : World) (r : Option (List Achievement)) :
    (fetchAndRenderAchievements lib w r).viewListeners = w.viewListeners :=
  (fetchAndRenderAchievements_sameView lib w r).2.1

@[simp]
theorem fetchAndRenderAchievements_addBtnDisabled (lib : Lib) (w : World) (r : Option (List Achievement)) :
    (fetchAndRenderAchievements lib w r).addBtnDisabled = w.addBtnDisabled :=
  (fetchAndRenderAchievements_sameView lib w r).2.2.1

@[simp]
theorem fetchAndRenderAchievements_currentUserAddress (lib : Lib) (w : World) (r : Option (List Achievement)) :
    (fetchAndRenderAchievements lib w r).currentUserAddress = w.currentUserAddress :=
  (fetchAndRenderAchievements_sameView lib w r).2.2.2

theorem fetchGlobalStats_sameView (w : World) (u a t : Option Nat) :
    SameView w (fetchGlobalStats w u a t) := by
  cases hC : w.contract <;> cases u <;> cases a <;> cases t <;>
    simp [fetchGlobalStats, SameView, hC]

@[simp]
theorem fetchGlobalStats_contract (w : World) (u a t : Option Nat) :
    (fetchGlobalStats w u a t).contract = w.contract :=
  (fetchGlobalStats_sameView w u a t).1

@[simp]
theorem fetchGlobalStats_viewListeners (w : World) (u a t : Option Nat) :
    (fetchGlobalStats w u a t).viewListeners = w.viewListeners :=
  (fetchGlobalStats_sameView w u a t).2.1

@[simp]
theorem fetchGlobalStats_addBtnDisabled (w : World) (u a t : Option Nat) :
    (fetchGlobalStats w u a t).addBtnDisabled = w.addBtnDisabled :=
  (fetchGlobalStats_sameView w u a t).2.2.1

@[simp]
theorem fetchGlobalStats_currentUserAddress (w : World) (u a t : Option Nat) :
    (fetchGlobalStats w u a t).currentUserAddress = w.currentUserAddress :=
  (fetchGlobalStats_sameView w u a t).2.2.2

theorem sendAchievement_sameView (lib : Lib) (w : World) (title description : String)
    (o : TxOutcome) : SameView w (sendAchievement lib w title description o) := by
  cases hC : w.contract <;> cases o <;> simp [sendAchievement, hC, SameView]

@[simp]
theorem sendAchievement_contract (lib : Lib) (w : World) (title description : String) (o : TxOutcome) :
    (sendAchievement lib w title description o).contract = w.contract :=
  (sendAchievement_sameView lib w title description o).1

@[simp]
theorem sendAchievement_viewListeners (lib : Lib) (w : World) (title description : String) (o : TxOutcome) :
    (sendAchievement lib w title description o).viewListeners = w.viewListeners :=
  (sendAchievement_sameView lib w title description o).2.1

@[simp]
theorem sendAchievement_addBtnDisabled (lib : Lib) (w : World) (title description : String) (o : TxOutcome) :
    (sendAchievement lib w title description o).addBtnDisabled = w.addBtnDisabled :=
  (sendAchievement_sameView lib w title description o).2.2.1

@[simp]
theorem sendAchievement_currentUserAddress (lib : Lib) (w : World) (title description : String) (o : TxOutcome) :
    (sendAchievement lib w title description o).currentUserAddress = w.currentUserAddress :=
  (sendAchievement_sameView lib w title description o).2.2.2

theorem onAddAchievement_sameView (lib : Lib) (w : World) (title description : String)
    (o : TxOutcome) : SameView w (onAddAchievement lib w title description o) := by
  unfold onAddAchievement
  split
  · simp [SameView]
  · split <;> simp [SameView]

@[simp]
theorem onAddAchievement_contract (lib : Lib) (w : World) (title description : String) (o : TxOutcome) :
    (onAddAchievement lib w title description o).contract = w.contract :=
  (onAddAchievement_sameView lib w title description o).1

@[simp]
theorem onAddAchievement_viewListeners (lib : Lib) (w : World) (title description : String) (o : TxOutcome) :
    (onAddAchievement lib w title description o).viewListeners = w.viewListeners :=
  (onAddAchievement_sameView lib w title description o).2.1

@[simp]
theorem onAddAchievement_addBtnDisabled (lib : Lib) (w : World) (title description : String) (o : TxOutcome) :
    (onAddAchievement lib w title description o).addBtnDisabled = w.addBtnDisabled :=
  (onAddAchievement_sameView lib w title description o).2.2.1

@[simp]
theorem onAddAchievement_currentUserAddress (lib : Lib) (w : World) (title description : String) (o : TxOutcome) :
    (onAddAchievement lib w title description o).currentUserAddress = w.currentUserAddress :=
  (onAddAchievement_sameView lib w title description o).2.2.2

theorem onSharePortfolio_sameView (w : World) (b : String) (c : Bool) :
    SameView w (onSharePortfolio w b c) := by
  cases c <;> simp [onSharePortfolio, SameView]

@[simp]
theorem onSharePortfolio_contract (w : World) (b : String) (c : Bool) :
    (onSharePortfolio w b c).contract = w.contract :=
  (onSharePortfolio_sameView w b c).1

@[simp]
theorem onSharePortfolio_viewListeners (w : World) (b : String) (c : Bool) :
    (onSharePortfolio w b c).viewListeners = w.viewListeners :=
  (onSharePortfolio_sameView w b c).2.1

@[simp]
theorem onSharePortfolio_addBtnDisabled (w : World) (b : String) (c : Bool) :
    (onSharePortfolio w b c).addBtnDisabled = w.addBtnDisabled :=
  (onSharePortfolio_sameView w b c).2.2.1

@[simp]
theorem onSharePortfolio_currentUserAddress (w : World) (b : String) (c : Bool) :
    (onSharePortfolio w b c).currentUserAddress = w.currentUserAddress :=
  (onSharePortfolio_sameView w b c).2.2.2

theorem keydownListener_sameView (w : World) (k : String) : SameView w (keydownListener w k) := by
  unfold keydownListener
  split <;> simp [SameView]

@[simp]
theorem keydownListener_contract (w : World) (k : String) :
    (keydownListener w k).contract = w.contract :=
  (keydownListener_sameView w k).1

@[simp]
theorem keydownListener_viewListeners (w : World) (k : String) :
    (keydownListener w k).viewListeners = w.viewListeners :=
  (keydownListener_sameView w k).2.1

@[simp]
theorem keydownListener_addBtnDisabled (w : World) (k : String) :
    (keydownListener w k).addBtnDisabled = w.addBtnDisabled :=
  (keydownListener_sameView w k).2.2.1

@[simp]
theorem keydownListener_currentUserAddress (w : World) (k : String) :
    (keydownListener w k).currentUserAddress = w.currentUserAddress :=
  (keydownListener_sameView w k).2.2.2

theorem promptNetworkSwitchSettle_sameView (w : World) (s : Bool) :
    SameView w (promptNetworkSwitchSettle w s) := by
  cases s <;> simp [promptNetworkSwitchSettle, SameView]

@[simp]
theorem promptNetworkSwitchSettle_contract (w : World) (s : Bool) :
    (promptNetworkSwitchSettle w s).contract = w.contract :=
  (promptNetworkSwitchSettle_sameView w s).1

@[simp]
theorem promptNetworkSwitchSettle_viewListeners (w : World) (s : Bool) :
    (promptNetworkSwitchSettle w s).viewListeners = w.viewListeners :=
  (promptNetworkSwitchSettle_sameView w s).2.1

@[simp]
theorem promptNetworkSwitchSettle_addBtnDisabled (w : World) (s : Bool) :
    (promptNetworkSwitchSettle w s).addBtnDisabled = w.addBtnDisabled :=
  (promptNetworkSwitchSettle_sameView w s).2.2.1

@[simp]
theorem promptNetworkSwitchSettle_currentUserAddress (w : World) (s : Bool) :
    (promptNetworkSwitchSettle w s).currentUserAddress = w.currentUserAddress :=
  (promptNetworkSwitchSettle_sameView w s).2.2.2

theorem connectWallet_sameView (w : World) (o : ConnectOutcome) :
    SameView w (connectWallet w o).1 := by
  unfold connectWallet
  cases he : w.ethereum
  · simp [SameView]
  · cases o with
    | requestRejected => simp [connectFailed, SameView]
    | signerFails => simp [connectFailed, SameView]
    | addressFails => simp [connectFailed, SameView]
    | granted a c s =>
      cases hc : strictNeNumber c BASE_SEPOLIA_CHAIN_ID <;>
        simp [hc, promptNetworkSwitch, SameView]

@[simp]
theorem connectWallet_contract (w : World) (o : ConnectOutcome) :
    ((connectWallet w o).1).contract = w.contract :=
  (connectWallet_sameView w o).1

@[simp]
theorem connectWallet_viewListeners (w : World) (o : ConnectOutcome) :
    ((connectWallet w o).1).viewListeners = w.viewListeners :=
  (connectWallet_sameView w o).2.1

@[simp]
theorem connectWallet_addBtnDisabled (w : World) (o : ConnectOutcome) :
    ((connectWallet w o).1).addBtnDisabled = w.addBtnDisabled :=
  (connectWallet_sameView w o).2.2.1

@[simp]
theorem connectWallet_currentUserAddress (w : World) (o : ConnectOutcome) :
    ((connectWallet w o).1).currentUserAddress = w.currentUserAddress :=
  (connectWallet_sameView w o).2.2.2

theorem onConnectClick_sameView (w : World) (o : ConnectOutcome) (c : Bool) :
    SameView w (onConnectClick w o c) := by
  unfold onConnectClick
  split <;> simp [SameView]

@[simp]
theorem onConnectClick_contract (w : World) (o : ConnectOutcome) (c : Bool) :
    (onConnectClick w o c).contract = w.contract :=
  (onConnectClick_sameView w o c).1

@[simp]
theorem onConnectClick_viewListeners (w : World) (o : ConnectOutcome) (c : Bool) :
    (onConnectClick w o c).viewListeners = w.viewListeners :=
  (onConnectClick_sameView w o c).2.1

@[simp]
theorem onConnectClick_addBtnDisabled (w : World) (o : ConnectOutcome) (c : Bool) :
    (onConnectClick w o c).addBtnDisabled = w.addBtnDisabled :=
  (onConnectClick_sameView w o c).2.2.1

@[simp]
theorem onConnectClick_currentUserAddress (w : World) (o : ConnectOutcome) (c : Bool) :
    (onConnectClick w o c).currentUserAddress = w.currentUserAddress :=
  (onConnectClick_sameView w o c).2.2.2

theorem onChainChanged_sameView (lib : Lib) (w : World) (chainId : String) (s : Bool)
    (u a t : Option Nat) : SameView w (onChainChanged lib w chainId s u a t) := by
  unfold onChainChanged
  split
  · simp [SameView]
  · cases hv : w.viewListeners <;> simp [dispatchEvent, networkChangedListener, hv, SameView]

@[simp]
theorem onChainChanged_contract (lib : Lib) (w : World) (chainId : String) (s : Bool) (u a t : Option Nat) :
    (onChainChanged lib w chainId s u a t).contract = w.contract :=
  (onChainChanged_sameView lib w chainId s u a t).1

@[simp]
theorem onChainChanged_viewListeners (lib : Lib) (w : World) (chainId : String) (s : Bool) (u a t : Option Nat) :
    (onChainChanged lib w chainId s u a t).viewListeners = w.viewListeners :=
  (onChainChanged_sameView lib w chainId s u a t).2.1

@[simp]
theorem onChainChanged_addBtnDisabled (lib : Lib) (w : World) (chainId : String) (s : Bool) (u a t : Option Nat) :
    (onChainChanged lib w chainId s u a t).addBtnDisabled = w.addBtnDisabled :=
  (onChainChanged_sameView lib w chainId s u a t).2.2.1

@[simp]
theorem onChainChanged_currentUserAddress (lib : Lib) (w : World) (chainId : String) (s : Bool) (u a t : Option Nat) :
    (onChainChanged lib w chainId s u a t).currentUserAddress = w.currentUserAddress :=
  (onChainChanged_sameView lib w chainId s u a t).2.2.2

/-- The account-change handler leaves the contract handle, the listener
registration and the button alone; on the empty list it leaves the target
address alone as well, and on a non-empty list it replaces the target address by
the first account exactly when the listeners of `main.js` are registered. -/
theorem onAccountsChanged_fields (lib : Lib) (w : World) (accounts : List String)
    (r : Option (List Achievement)) :
    (onAccountsChanged lib w accounts r).contract = w.contract ∧
    (onAccountsChanged lib w accounts r).viewListeners = w.viewListeners ∧
    (onAccountsChanged lib w accounts r).addBtnDisabled = w.addBtnDisabled ∧
    (onAccountsChanged lib w accounts r).currentUserAddress =
      (match accounts with
        | [] => w.currentUserAddress
        | a :: _ => if w.viewListeners then some a else w.currentUserAddress) := by
  cases accounts with
  | nil => simp [onAccountsChanged]
  | cons a rest =>
    cases hv : w.viewListeners <;>
      simp [onAccountsChanged, dispatchEvent, accountChangedListener, hv]

theorem renderAchievements_sameWallet (lib : Lib) (w : World) (l : List Achievement) :
    SameWallet w (renderAchievements lib w l) := by
  unfold renderAchievements
  by_cases hl : l.length = 0
  · simp [hl, SameWallet]
  · cases hA : appendCards lib [] l <;> simp [hl, hA, SameWallet]

@[simp]
theorem renderAchievements_userAddress (lib : Lib) (w : World) (l : List Achievement) :
    (renderAchievements lib w l).userAddress = w.userAddress :=
  (renderAchievements_sameWallet lib w l).1

@[simp]
theorem renderAchievements_storedAddress (lib : Lib) (w : World) (l : List Achievement) :
    (renderAchievements lib w l).storedAddress = w.storedAddress :=
  (renderAchievements_sameWallet lib w l).2.1

@[simp]
theorem renderAchievements_walletListeners (lib : Lib) (w : World) (l : List Achievement) :
    (renderAchievements lib w l).walletListeners = w.walletListeners :=
  (renderAchievements_sameWallet lib w l).2.2.1

@[simp]
theorem renderAchievements_statusClass (lib : Lib) (w : World) (l : List Achievement) :
    (renderAchievements lib w l).statusClass = w.statusClass :=
  (renderAchievements_sameWallet lib w l).2.2.2

theorem fetchAndRenderAchievements_sameWallet (lib : Lib) (w : World)
    (r : Option (List Achievement)) : SameWallet w (fetchAndRenderAchievements lib w r) := by
  cases hT : truthy w.currentUserAddress <;> cases hC : w.contract <;> cases r <;>
    simp [fetchAndRenderAchievements, hT, hC, SameWallet]

@[simp]
theorem fetchAndRenderAchievements_userAddress (lib : Lib) (w : World) (r : Option (List Achievement)) :
    (fetchAndRenderAchievements lib w r).userAddress = w.userAddress :=
  (fetchAndRenderAchievements_sameWallet lib w r).1

@[simp]
theorem fetchAndRenderAchievements_storedAddress (lib : Lib) (w : World) (r : Option (List Achievement)) :
    (fetchAndRenderAchievements lib w r).storedAddress = w.storedAddress :=
  (fetchAndRenderAchievements_sameWallet lib w r).2.1

@[simp]
theorem fetchAndRenderAchievements_walletListeners (lib : Lib) (w : World) (r : Option (List Achievement)) :
    (fetchAndRenderAchievements lib w r).walletListeners = w.walletListeners :=
  (fetchAndRenderAchievements_sameWallet lib w r).2.2.1

@[simp]
theorem fetchAndRenderAchievements_statusClass (lib : Lib) (w : World) (r : Option (List Achievement)) :
    (fetchAndRenderAchievements lib w r).statusClass = w.statusClass :=
  (fetchAndRenderAchievements_sameWallet lib w r).2.2.2

theorem fetchGlobalStats_sameWallet (w : World) (u a t : Option Nat) :
    SameWallet w (fetchGlobalStats w u a t) := by
  cases hC : w.contract <;> cases u <;> cases a <;> cases t <;>
    simp [fetchGlobalStats, SameWallet, hC]

@[simp]
theorem fetchGlobalStats_userAddress (w : World) (u a t : Option Nat) :
    (fetchGlobalStats w u a t).userAddress = w.userAddress :=
  (fetchGlobalStats_sameWallet w u a t).1

@[simp]
theorem fetchGlobalStats_storedAddress (w : World) (u a t : Option Nat) :
    (fetchGlobalStats w u a t).storedAddress = w.storedAddress :=
  (fetchGlobalStats_sameWallet w u a t).2.1

@[simp]
theorem fetchGlobalStats_walletListeners (w : World) (u a t : Option Nat) :
    (fetchGlobalStats w u a t).walletListeners = w.walletListeners :=
  (fetchGlobalStats_sameWallet w u a t).2.2.1

@[simp]
theorem fetchGlobalStats_statusClass (w : World) (u a t : Option Nat) :
    (fetchGlobalStats w u a t).statusClass = w.statusClass :=
  (fetchGlobalStats_sameWallet w u a t).2.2.2

/-! ## Trace lemmas -/

theorem renderAchievements_trace (lib : Lib) (w : World) (l : List Achievement) :
    (renderAchievements lib w l).trace = w.trace := by
  unfold renderAchievements
  by_cases hl : l.length = 0
  · simp [hl]
  · cases hA : appendCards lib [] l <;> simp [hl, hA]

/-- The render issues the `getAchievements` read for the target address, and
nothing else, exactly when a target address is set and the contract exists. -/
theorem fetchAndRenderAchievements_trace (lib : Lib) (w : World)
    (r : Option (List Achievement)) :
    (fetchAndRenderAchievements lib w r).trace =
      (if truthy w.currentUserAddress && w.contract
        then w.trace ++ [Effect.getAchievements (w.currentUserAddress.getD "")]
        else w.trace) := by
  cases hT : truthy w.currentUserAddress <;> cases hC : w.contract <;> cases r <;>
    simp [fetchAndRenderAchievements, renderAchievements_trace, hT, hC]

/-- The statistics refresh issues the three reads, and nothing else, exactly
when the contract exists. -/
theorem fetchGlobalStats_trace (w : World) (u a t : Option Nat) :
    (fetchGlobalStats w u a t).trace =
      (if w.contract
        then w.trace ++ [Effect.totalUsers, Effect.totalAchievements, Effect.totalTxns]
        else w.trace) := by
  cases hC : w.contract <;> cases u <;> cases a <;> cases t <;>
    simp [fetchGlobalStats, hC]

@[simp]
theorem addCalls_append (xs ys : List Effect) : addCalls (xs ++ ys) = addCalls xs ++ addCalls ys := by
  simp [addCalls]

@[simp]
theorem readCalls_append (xs ys : List Effect) :
    readCalls (xs ++ ys) = readCalls xs ++ readCalls ys := by
  simp [readCalls]

@[simp]
theorem addCalls_fetchAndRenderAchievements (lib : Lib) (w : World)
    (r : Option (List Achievement)) :
    addCalls (fetchAndRenderAchievements lib w r).trace = addCalls w.trace := by
  rw [fetchAndRenderAchievements_trace]
  split <;> simp [addCalls, Effect.isAddCall]

@[simp]
theorem addCalls_fetchGlobalStats (w : World) (u a t : Option Nat) :
    addCalls (fetchGlobalStats w u a t).trace = addCalls w.trace := by
  rw [fetchGlobalStats_trace]
  split <;> simp [addCalls, Effect.isAddCall]

theorem perRegistration_induct (P : World → Prop) (f : World → World)
    (hf : ∀ v, P v → P (f v)) (w : World) (h : P w) : P (perRegistration w f) := by
  unfold perRegistration
  generalize w.walletListeners = n
  induction n generalizing w with
  | zero => exact h
  | succ n ih => exact ih (f w) (hf w h)

/-- One event leaves the contract handle, the listener registration and the
disabled flag of the button alone, and leaves the target address alone unless it
is an account change to a non-empty list delivered to a registered listener. -/
theorem step_fields (lib : Lib) (w : World) (e : Event) :
    (step lib w e).contract = w.contract ∧
    (step lib w e).viewListeners = w.viewListeners ∧
    (step lib w e).addBtnDisabled = w.addBtnDisabled ∧
    (e.switchesAccount = false ∨ w.viewListeners = false →
      (step lib w e).currentUserAddress = w.currentUserAddress) := by
  cases e with
  | connectClick o c => simp [step]
  | accountsChanged accounts r =>
    refine perRegistration_induct
      (fun v => v.contract = w.contract ∧ v.viewListeners = w.viewListeners ∧
        v.addBtnDisabled = w.addBtnDisabled ∧
        ((Event.accountsChanged accounts r).switchesAccount = false ∨ w.viewListeners = false →
          v.currentUserAddress = w.currentUserAddress)) _ ?_ w ⟨rfl, rfl, rfl, fun _ => rfl⟩
    intro v hv
    obtain ⟨h1, h2, h3, h4⟩ := onAccountsChanged_fields lib v accounts r
    refine ⟨h1.trans hv.1, h2.trans hv.2.1, h3.trans hv.2.2.1, fun hc => ?_⟩
    rw [h4, ← hv.2.2.2 hc]
    cases accounts with
    | nil => rfl
    | cons a rest =>
      rcases hc with hc | hc
      · simp [Event.switchesAccount] at hc
      · simp [hv.2.1, hc]
  | chainChanged chainId s u a t =>
    refine perRegistration_induct
      (fun v => v.contract = w.contract ∧ v.viewListeners = w.viewListeners ∧
        v.addBtnDisabled = w.addBtnDisabled ∧
        ((Event.chainChanged chainId s u a t).switchesAccount = false ∨ w.viewListeners = false →
          v.currentUserAddress = w.currentUserAddress)) _ ?_ w ⟨rfl, rfl, rfl, fun _ => rfl⟩
    intro v hv
    refine ⟨?_, ?_, ?_, fun hc => ?_⟩
    · simpa using hv.1
    · simpa using hv.2.1
    · simpa using hv.2.2.1
    · simpa using hv.2.2.2 hc
  | addClick => simp only [step]; split <;> simp
  | closeClick => simp only [step]; split <;> simp
  | keydown k => simp only [step]; split <;> simp
  | submit title description o => simp only [step]; split <;> simp
  | share b c => simp only [step]; split <;> simp

/-- Events other than account changes to a non-empty list leave the contract
handle, the listener registration, the button and the target address alone. -/
theorem run_fields (lib : Lib) (events : List Event) (w : World) :
    (run lib w events).contract = w.contract ∧
    (run lib w events).viewListeners = w.viewListeners ∧
    (run lib w events).addBtnDisabled = w.addBtnDisabled ∧
    ((∀ e ∈ events, e.switchesAccount = false) ∨ w.viewListeners = false →
      (run lib w events).currentUserAddress = w.currentUserAddress) := by
  induction events generalizing w with
  | nil => exact ⟨rfl, rfl, rfl, fun _ => rfl⟩
  | cons e rest ih =>
    obtain ⟨s1, s2, s3, s4⟩ := step_fields lib w e
    obtain ⟨r1, r2, r3, r4⟩ := ih (step lib w e)
    have hrun : run lib w (e :: rest) = run lib (step lib w e) rest := rfl
    rw [hrun]
    refine ⟨r1.trans s1, r2.trans s2, r3.trans s3, fun hc => ?_⟩
    rw [r4, s4]
    · rcases hc with hc | hc
      · exact Or.inl (hc e (List.mem_cons_self e rest))
      · exact Or.inr hc
    · rcases hc with hc | hc
      · exact Or.inl (fun x hx => hc x (List.mem_cons_of_mem e hx))
      · exact Or.inr (s2.trans hc)

/-- The function `init` on a page with a wallet extension: the contract handle
exists, the listeners are registered, the button is disabled in read-only mode
and otherwise untouched, and the target address is the lower-cased URL address
when it is well-formed and the restored session address otherwise. -/
theorem init_fields_provider (lib : Lib) (w : World) (signerOk : Bool) (q : Option String)
    (r : Option (List Achievement)) (u a t : Option Nat) (he : w.ethereum = true) :
    (init lib w signerOk q r u a t).contract = true ∧
    (init lib w signerOk q r u a t).viewListeners = true ∧
    (init lib w signerOk q r u a t).addBtnDisabled = (validQuery lib q || w.addBtnDisabled) ∧
    (init lib w signerOk q r u a t).currentUserAddress =
      (if validQuery lib q then some (lib.toLowerCase (q.getD "")) else w.storedAddress) := by
  cases hs : truthy w.storedAddress <;> cases hq : validQuery lib q <;>
    simp [init, initWallet, he, hs, hq] <;> split <;> simp

/-- The function `init` on a page without a wallet extension returns before it
builds the contract handle: only the status dot and the notification change. -/
theorem init_fields_no_provider (lib : Lib) (w : World) (signerOk : Bool) (q : Option String)
    (r : Option (List Achievement)) (u a t : Option Nat) (he : w.ethereum = false)
    (hp : w.provider = false) :
    SameView w (init lib w signerOk q r u a t) := by
  simp [init, initWallet, he, hp, SameView]

/-- In every reachable state the listeners of `main.js` are registered only
after the contract handle was built, and the target address is unset as long as
they are not registered. -/
theorem Reachable.invariant {lib : Lib} {w : World} (h : Reachable lib w) :
    (w.viewListeners = true → w.contract = true) ∧
    (w.viewListeners = false → w.currentUserAddress = none) := by
  obtain ⟨env, signerOk, q, r, u, a, t, events, rfl⟩ := h
  obtain ⟨r1, r2, r3, r4⟩ :=
    run_fields lib events (init lib (pageLoad env) signerOk q r u a t)
  cases he : env.ethereum
  · obtain ⟨i1, i2, i3, i4⟩ :=
      init_fields_no_provider lib (pageLoad env) signerOk q r u a t he rfl
    have hv : (init lib (pageLoad env) signerOk q r u a t).viewListeners = false := i2
    refine ⟨fun h => ?_, fun _ => ?_⟩
    · rw [r2, hv] at h; cases h
    · rw [r4 (Or.inr hv), i4]; rfl
  · obtain ⟨i1, i2, i3, i4⟩ :=
      init_fields_provider lib (pageLoad env) signerOk q r u a t he
    refine ⟨fun _ => r1.trans i1, fun h => ?_⟩
    rw [r2, i2] at h; cases h

/-- In every reachable state with a target address the contract handle exists. -/
theorem Reachable.contract_of_target {lib : Lib} {w : World} (h : Reachable lib w)
    (ht : truthy w.currentUserAddress = true) : w.contract = true := by
  cases hv : w.viewListeners
  · rw [h.invariant.2 hv] at ht; cases ht
  · exact h.invariant.1 hv

/-! ## Chain id literal (C8) -/

/-- C8 (evaluation at the failing input): the literal sent with the switch
request, `0x14977`, parses to 84343 and not to `BASE_SEPOLIA_CHAIN_ID`, whose
hexadecimal form is `0x14a33`; a
`chainChanged` event carrying it therefore takes the wrong-network branch: the
handler sends the switch request again, leaves the status dot on `status-error`
and dispatches no `networkChanged` event. -/
theorem chainChanged_switch_literal_is_wrong_network (lib : Lib) (w : World) (switched : Bool)
    (users achs txns : Option Nat) :
    parseInt16 switchChainIdHex = some 84343 ∧
    parseInt16 switchChainIdHex ≠ some (BASE_SEPOLIA_CHAIN_ID : Int) ∧
    parseInt16 "0x14a33" = some (BASE_SEPOLIA_CHAIN_ID : Int) ∧
    (onChainChanged lib w switchChainIdHex switched users achs txns).statusClass = "status-error" ∧
    (onChainChanged lib w switchChainIdHex switched users achs txns).trace =
      w.trace ++
        [Effect.walletRequest "wallet_switchEthereumChain" "0x14977",
         Effect.notify "Please switch to Base Sepolia network" "error",
         if switched then Effect.notify "Switched to Base Sepolia network" "success"
         else Effect.notify "Please switch to Base Sepolia network" "error"] := by
  have hp : parseInt16 switchChainIdHex = some 84343 := by decide
  have hne : parseInt16 switchChainIdHex ≠ some (BASE_SEPOLIA_CHAIN_ID : Int) := by
    rw [hp]; decide
  refine ⟨hp, hne, by decide, ?_, ?_⟩
  · unfold onChainChanged
    rw [if_pos hne]
    cases switched <;>
      simp [promptNetworkSwitchSettle, promptNetworkSwitchSend, showNotification, setStatus,
        statusClassOf]
  · unfold onChainChanged
    rw [if_pos hne]
    cases switched <;>
      simp [promptNetworkSwitchSettle, promptNetworkSwitchSend, showNotification, setStatus,
        switchChainIdHex]

/-! ## Global statistics (C1) -/

/-- C1 (counterexample): when only the `totalUsers` read fails and the other two
reads yield 5 and 7, the displays of the two successful reads do not show 5 and
7: all three displays show the placeholder. -/
theorem fetchGlobalStats_one_failure_blanks_all :
    ¬ ((fetchGlobalStats guestView none (some 5) (some 7)).totalUsersText = "?" ∧
        (fetchGlobalStats guestView none (some 5) (some 7)).totalAchievementsText = toString 5 ∧
        (fetchGlobalStats guestView none (some 5) (some 7)).totalTxnsText = toString 7) ∧
    (fetchGlobalStats guestView none (some 5) (some 7)).totalAchievementsText = "?" ∧
    (fetchGlobalStats guestView none (some 5) (some 7)).totalTxnsText = "?" := by
  decide

/-- C1 (amended): the three reads are displayed all or nothing. When at least
one read fails, every display shows the placeholder, those of the successful
reads included; when all three succeed on a view whose contract handle exists,
each display shows its value in decimal. -/
theorem fetchGlobalStats_all_or_nothing (w : World) (users achs txns : Option Nat)
    (h : users = none ∨ achs = none ∨ txns = none) :
    ((fetchGlobalStats w users achs txns).totalUsersText = "?" ∧
      (fetchGlobalStats w users achs txns).totalAchievementsText = "?" ∧
      (fetchGlobalStats w users achs txns).totalTxnsText = "?") ∧
    ∀ u a t : Nat, w.contract = true →
      (fetchGlobalStats w (some u) (some a) (some t)).totalUsersText = toString u ∧
      (fetchGlobalStats w (some u) (some a) (some t)).totalAchievementsText = toString a ∧
      (fetchGlobalStats w (some u) (some a) (some t)).totalTxnsText = toString t := by
  constructor
  · unfold fetchGlobalStats
    rcases h with h | h | h <;> subst h <;> cases hc : w.contract <;> simp
  · intro u a t hc
    simp [fetchGlobalStats, hc]

/-- C1 (witness): the amended statement at the inputs of the counterexample. -/
theorem fetchGlobalStats_all_or_nothing_witness :
    ((none : Option Nat) = none ∨ some 5 = none ∨ some 7 = none) ∧
    (fetchGlobalStats guestView none (some 5) (some 7)).totalTxnsText = "?" ∧
    guestView.contract = true ∧
    (fetchGlobalStats guestView (some 4) (some 5) (some 7)).totalTxnsText = toString 7 :=
  ⟨Or.inl rfl,
   (fetchGlobalStats_all_or_nothing guestView none (some 5) (some 7) (Or.inl rfl)).1.2.2,
   by decide,
   ((fetchGlobalStats_all_or_nothing guestView none (some 5) (some 7) (Or.inl rfl)).2 4 5 7
      (by decide)).2.2⟩

/-! ## Connecting the wallet (C7) -/

/-- C7 (counterexample): on a page without a wallet extension `connectWallet`
returns `null` and shows an error, and the status it leaves is `no-metamask`,
not `disconnected`. -/
theorem connectWallet_no_provider_status :
    (connectWallet (pageLoad { freshPage with ethereum := false })
        ConnectOutcome.requestRejected).1.statusClass = "status-no-metamask" ∧
    (connectWallet (pageLoad { freshPage with ethereum := false })
        ConnectOutcome.requestRejected).1.statusClass ≠ statusClassOf "disconnected" ∧
    (connectWallet (pageLoad { freshPage with ethereum := false })
        ConnectOutcome.requestRejected).2 = none := by
  decide

/-- C7 (amended): in both failure cases `connectWallet` returns `null` and shows
a notification of type error; the status is `disconnected` when a provider is
present and the request is rejected or a call throws, and `no-metamask` when no
provider is present. -/
theorem connectWallet_failure (w : World) (outcome : ConnectOutcome)
    (h : w.ethereum = false ∨ outcome.isFailure = true) :
    (connectWallet w outcome).2 = none ∧
    (∃ message, (connectWallet w outcome).1.notification = some ⟨message, "error"⟩ ∧
      (connectWallet w outcome).1.trace.getLast? = some (Effect.notify message "error")) ∧
    (connectWallet w outcome).1.statusClass =
      (if w.ethereum then "status-disconnected" else "status-no-metamask") := by
  cases he : w.ethereum
  · refine ⟨?_, ⟨"MetaMask not found. Please install it.", ?_, ?_⟩, ?_⟩ <;>
      simp [connectWallet, connectFailed, he, statusClassOf]
  · have hf : outcome.isFailure = true := by
      rcases h with h | h
      · rw [he] at h; cases h
      · exact h
    cases outcome with
    | granted a c s => cases hf
    | requestRejected =>
      refine ⟨?_, ⟨"Connection failed or rejected", ?_, ?_⟩, ?_⟩ <;>
        simp [connectWallet, connectFailed, he, statusClassOf]
    | signerFails =>
      refine ⟨?_, ⟨"Connection failed or rejected", ?_, ?_⟩, ?_⟩ <;>
        simp [connectWallet, connectFailed, he, statusClassOf]
    | addressFails =>
      refine ⟨?_, ⟨"Connection failed or rejected", ?_, ?_⟩, ?_⟩ <;>
        simp [connectWallet, connectFailed, he, statusClassOf]

/-- C7 (witness): a rejected request on a page with a wallet extension. -/
theorem connectWallet_failure_witness :
    ((pageLoad freshPage).ethereum = false ∨ ConnectOutcome.requestRejected.isFailure = true) ∧
    (connectWallet (pageLoad freshPage) ConnectOutcome.requestRejected).2 = none ∧
    (connectWallet (pageLoad freshPage) ConnectOutcome.requestRejected).1.statusClass =
      "status-disconnected" :=
  ⟨Or.inr rfl,
   (connectWallet_failure (pageLoad freshPage) ConnectOutcome.requestRejected (Or.inr rfl)).1,
   (connectWallet_failure (pageLoad freshPage) ConnectOutcome.requestRejected (Or.inr rfl)).2.2⟩

/-! ## Wallet account changes (C10) -/

/-- C10 (evaluation at the failing input): on an `accountsChanged` event with
the empty account list the handler clears `userAddress` and leaves the
session-storage item, the target address of the view and the list of dispatched
events as they were: its only effect outside the wallet module is the
disconnect notification. -/
theorem accountsChanged_empty_keeps_storage (lib : Lib) (w : World)
    (result : Option (List Achievement)) :
    (onAccountsChanged lib w [] result).userAddress = none ∧
    (onAccountsChanged lib w [] result).storedAddress = w.storedAddress ∧
    (onAccountsChanged lib w [] result).currentUserAddress = w.currentUserAddress ∧
    (onAccountsChanged lib w [] result).trace =
      w.trace ++ [Effect.notify "Wallet disconnected" "warning"] := by
  simp [onAccountsChanged, showNotification, setStatus, updateConnectBtn]

/-- On a non-empty account list the handler stores the first account and
dispatches `accountChanged` with it. -/
theorem accountsChanged_nonempty_updates (lib : Lib) (w : World) (a : String) (rest : List String)
    (result : Option (List Achievement)) :
    (onAccountsChanged lib w (a :: rest) result).userAddress = some a ∧
    (onAccountsChanged lib w (a :: rest) result).storedAddress = some a ∧
    Effect.dispatch (AppEvent.accountChanged a) ∈ (onAccountsChanged lib w (a :: rest) result).trace := by
  cases hv : w.viewListeners <;>
    simp [onAccountsChanged, dispatchEvent, accountChangedListener,
      fetchAndRenderAchievements_trace, hv]
  split <;> simp

/-! ## Submitting an achievement (C2, C3) -/

/-- Trimming leaves the empty string exactly for the strings made of white space
only (the empty string among them). -/
theorem jsTrim_eq_empty_iff (s : String) :
    jsTrim s = "" ↔ ∀ c ∈ s.toList, isJsWhiteSpace c = true := by
  have hmk : ∀ l : List Char, String.mk l = "" ↔ l = [] := by
    intro l
    constructor
    · intro h
      have : (String.mk l).data = [] := by rw [h]
      exact this
    · intro h
      rw [h]
  unfold jsTrim
  rw [hmk, List.reverse_eq_nil_iff, List.dropWhile_eq_nil_iff]
  constructor
  · intro h
    cases hd : s.toList.dropWhile isJsWhiteSpace with
    | nil => exact List.dropWhile_eq_nil_iff.mp hd
    | cons c rest =>
      have hc : isJsWhiteSpace c = true := h c (by rw [hd]; simp)
      have hne : s.toList.dropWhile isJsWhiteSpace ≠ [] := by rw [hd]; simp
      have hhead := List.head_dropWhile_not isJsWhiteSpace s.toList hne
      have hh : (s.toList.dropWhile isJsWhiteSpace).head hne = c := by
        simp only [hd, List.head_cons]
      rw [hh, hc] at hhead
      cases hhead
  · intro h c hc
    rw [List.dropWhile_eq_nil_iff.mpr h] at hc
    simp at hc

/-- C2 (evaluation at the failing input): after the wallet has reported zero
accounts on the restored session of `aliceAddress`, the wallet module holds no
address and the status is `disconnected`, while the view still targets the
former account, the add-achievement button is enabled and the modal is open. A
submission made then calls `contract.addAchievement` once, and when the
transaction is confirmed the notification shown last is the success message,
not an error. -/
theorem submit_after_disconnect_calls_contract :
    disconnectedView.userAddress = none ∧
    disconnectedView.statusClass = "status-disconnected" ∧
    disconnectedView.currentUserAddress = some aliceAddress ∧
    disconnectedView.addBtnDisabled = false ∧
    disconnectedView.modalHidden = false ∧
    addCalls (step evalLib disconnectedView
        (Event.submit " Won" "First place "
          (TxOutcome.confirmed (some []) (some 1) (some 2) (some 3)))).trace =
      [Effect.addAchievement "Won" "First place"] ∧
    (step evalLib disconnectedView
        (Event.submit " Won" "First place "
          (TxOutcome.confirmed (some []) (some 1) (some 2) (some 3)))).notification =
      some ⟨"Achievement added!", "success"⟩ := by
  decide

/-- C3: a submission whose title or description is empty after trimming calls
neither `contract.addAchievement` nor any contract read and leaves the list and
the counters as they were; a submission with a target address and two non-empty
trimmed values calls `contract.addAchievement` exactly once, with the trimmed
title and the trimmed description. -/
theorem onAddAchievement_validation (lib : Lib) (w : World) (title description : String)
    (o : TxOutcome) (hr : Reachable lib w) :
    ((jsTrim title = "" ∨ jsTrim description = "") →
      addCalls (onAddAchievement lib w title description o).trace = addCalls w.trace ∧
      readCalls (onAddAchievement lib w title description o).trace = readCalls w.trace ∧
      (onAddAchievement lib w title description o).achievementsList = w.achievementsList ∧
      (onAddAchievement lib w title description o).totalUsersText = w.totalUsersText ∧
      (onAddAchievement lib w title description o).totalAchievementsText = w.totalAchievementsText ∧
      (onAddAchievement lib w title description o).totalTxnsText = w.totalTxnsText) ∧
    (truthy w.currentUserAddress = true → jsTrim title ≠ "" → jsTrim description ≠ "" →
      addCalls (onAddAchievement lib w title description o).trace =
        addCalls w.trace ++ [Effect.addAchievement (jsTrim title) (jsTrim description)]) := by
  constructor
  · intro he
    have hE : (jsTrim title == "" || jsTrim description == "") = true := by
      rcases he with he | he <;> simp [he]
    cases hT : truthy w.currentUserAddress <;>
      simp [onAddAchievement, hT, hE, addCalls, readCalls, Effect.isAddCall, Effect.isRead]
  · intro hT h1 h2
    have hC : w.contract = true := hr.contract_of_target hT
    have hE : (jsTrim title == "" || jsTrim description == "") = false := by
      simp [h1, h2]
    cases o <;>
      simp [onAddAchievement, sendAchievement, hT, hE, hC]
    all_goals simp [addCalls, Effect.isAddCall]

/-- C3 (witness): on the restored session of `aliceView`, a whitespace-only
description is rejected and padded values are sent trimmed. -/
theorem onAddAchievement_validation_witness :
    Reachable evalLib aliceView ∧
    addCalls (onAddAchievement evalLib aliceView " Won " "\t \n" TxOutcome.sendFails).trace =
      addCalls aliceView.trace ∧
    addCalls (onAddAchievement evalLib aliceView " Won " " First place" TxOutcome.waitFails).trace =
      addCalls aliceView.trace ++ [Effect.addAchievement "Won" "First place"] :=
  ⟨⟨returningPage, true, none, some [], some 1, some 2, some 3, [], rfl⟩,
   ((onAddAchievement_validation evalLib aliceView " Won " "\t \n" TxOutcome.sendFails
      ⟨returningPage, true, none, some [], some 1, some 2, some 3, [], rfl⟩).1
        (Or.inr (by decide))).1,
   (onAddAchievement_validation evalLib aliceView " Won " " First place" TxOutcome.waitFails
      ⟨returningPage, true, none, some [], some 1, some 2, some 3, [], rfl⟩).2
        (by decide) (by decide) (by decide)⟩

/-! ## The add-achievement button (C4) -/

/-- C4 (counterexample): the enabled state of the button does not follow the
session. Without URL parameter, a page whose markup leaves the button enabled
keeps it enabled with no session, and a page whose markup disables it keeps it
disabled with a restored session; and on a page without wallet extension a
well-formed URL address does not disable the button. -/
theorem addButton_does_not_follow_session :
    (guestView.userAddress = none ∧ guestView.addBtnDisabled = false) ∧
    ((init evalLib (pageLoad { returningPage with addBtnDisabled := true }) true none (some [])
        (some 1) (some 2) (some 3)).userAddress = some aliceAddress ∧
      (init evalLib (pageLoad { returningPage with addBtnDisabled := true }) true none (some [])
        (some 1) (some 2) (some 3)).statusClass = "status-connected" ∧
      (init evalLib (pageLoad { returningPage with addBtnDisabled := true }) true none (some [])
        (some 1) (some 2) (some 3)).addBtnDisabled = true) ∧
    (validQuery evalLib (some bobAddress) = true ∧
      (init evalLib (pageLoad { freshPage with ethereum := false }) false (some bobAddress)
        (some []) (some 1) (some 2) (some 3)).addBtnDisabled = false) := by
  decide

/-- C4 (amended): after `init` and after any later events, the button is
disabled exactly when a wallet provider is present and the URL parameter is a
well-formed address, or the page markup had it disabled; the session state has
no influence. -/
theorem addButton_after_init (lib : Lib) (env : PageEnv) (signerOk : Bool) (q : Option String)
    (r : Option (List Achievement)) (u a t : Option Nat) (events : List Event) :
    (run lib (init lib (pageLoad env) signerOk q r u a t) events).addBtnDisabled =
      ((env.ethereum && validQuery lib q) || env.addBtnDisabled) := by
  rw [(run_fields lib events _).2.2.1]
  cases he : env.ethereum
  · rw [(init_fields_no_provider lib (pageLoad env) signerOk q r u a t he rfl).2.2.1]
    simp [pageLoad]
  · rw [(init_fields_provider lib (pageLoad env) signerOk q r u a t he).2.2.1]
    simp [pageLoad]

/-! ## Sharing the portfolio (C5) -/

/-- C5 (counterexample): with the restored session of `aliceAddress` as target,
the shared URL carries the address as the session holds it, in upper case, and
not its lower-cased form. -/
theorem share_keeps_session_address_case :
    aliceView.currentUserAddress = some aliceAddress ∧
    (onSharePortfolio aliceView "https://site/app" true).clipboard =
      some "https://site/app?user=0x52908400098527886E0F7030069857D2E4169EE7" ∧
    (onSharePortfolio aliceView "https://site/app" true).clipboard ≠
      some ("https://site/app" ++ "?user=" ++ evalLib.toLowerCase aliceAddress) := by
  decide

/-- C5 (amended): `onSharePortfolio` writes the base URL followed by `?user=`
and the target address exactly as the view holds it. After `init` on a page
with a wallet provider that is the lower-cased URL address when the parameter is
well-formed, and otherwise the restored session address unchanged, or the base
URL alone when there is none; after an `accountChanged` event it is the
address carried by the event, unchanged. -/
theorem share_writes_target_as_held (lib : Lib) (w : World) (signerOk : Bool) (q : Option String)
    (r : Option (List Achievement)) (u a t : Option Nat) (baseURL : String) (copied : Bool)
    (he : w.ethereum = true) :
    (onSharePortfolio (init lib w signerOk q r u a t) baseURL copied).trace =
      (init lib w signerOk q r u a t).trace ++
        [Effect.clipboardWrite (shareURL (init lib w signerOk q r u a t) baseURL),
         if copied then Effect.notify "Portfolio URL copied to clipboard!" "success"
         else Effect.notify "Failed to copy URL" "error"] ∧
    shareURL (init lib w signerOk q r u a t) baseURL =
      (if validQuery lib q then baseURL ++ "?user=" ++ lib.toLowerCase (q.getD "")
       else if truthy w.storedAddress then baseURL ++ "?user=" ++ w.storedAddress.getD ""
       else baseURL) ∧
    ∀ (detail : String) (r2 : Option (List Achievement)), detail ≠ "" →
      shareURL (accountChangedListener lib (init lib w signerOk q r u a t) detail r2) baseURL =
        baseURL ++ "?user=" ++ detail := by
  refine ⟨?_, ?_, ?_⟩
  · cases copied <;> simp [onSharePortfolio]
  · unfold shareURL
    rw [(init_fields_provider lib w signerOk q r u a t he).2.2.2]
    cases hq : validQuery lib q
    · simp
    · have hne : q.getD "" ≠ "" := by
        cases q with
        | none => simp [validQuery, truthy] at hq
        | some x =>
          simp only [validQuery, truthy, Bool.and_eq_true] at hq
          simpa using hq.1
      simp [truthy, lib.toLowerCase_nonempty _ hne]
  · intro detail r2 hd
    simp [shareURL, accountChangedListener, truthy, hd]

/-- C5 (witness): the read-only view of `bobAddress` and a session that
switches to `carolAddress`. -/
theorem share_writes_target_as_held_witness :
    (pageLoad freshPage).ethereum = true ∧
    shareURL readOnlyView "https://site/app" =
      "https://site/app?user=0xde709f2102306220921060314715629080e2fb77" ∧
    shareURL (accountChangedListener evalLib readOnlyView carolAddress none) "https://site/app" =
      "https://site/app" ++ "?user=" ++ carolAddress :=
  ⟨rfl,
   (share_writes_target_as_held evalLib (pageLoad freshPage) false (some bobAddress) (some [])
      (some 1) (some 2) (some 3) "https://site/app" true rfl).2.1,
   (share_writes_target_as_held evalLib (pageLoad freshPage) false (some bobAddress) (some [])
      (some 1) (some 2) (some 3) "https://site/app" true rfl).2.2 carolAddress none (by decide)⟩

/-! ## Rendering achievements (C6) -/

theorem appendCards_valid (lib : Lib) (l : List Achievement) (acc : List Node)
    (hv : ∀ a ∈ l, a.datable) :
    appendCards lib acc l = some (acc ++ l.map (cardOf lib)) := by
  induction l generalizing acc with
  | nil => simp [appendCards]
  | cons a rest ih =>
    obtain ⟨n, hn, ha⟩ := hv a (List.mem_cons_self a rest)
    have hrest : ∀ b ∈ rest, b.datable :=
      fun b hb => hv b (List.mem_cons_of_mem a hb)
    simp [appendCards, createAchievementCard, timesThousand, JsInt.toNat, hn, ha, ih _ hrest,
      cardOf]

theorem appendCards_bigint (lib : Lib) (l : List Achievement) (acc : List Node)
    (hb : ∃ a ∈ l, ∃ n, a.timestamp = JsInt.bigint n) : appendCards lib acc l = none := by
  induction l generalizing acc with
  | nil =>
    obtain ⟨a, ha, _⟩ := hb
    cases ha
  | cons x rest ih =>
    cases hx : createAchievementCard lib x with
    | none => simp [appendCards, hx]
    | some c =>
      have hrest : ∃ a ∈ rest, ∃ n, a.timestamp = JsInt.bigint n := by
        obtain ⟨a, ha, n, hn⟩ := hb
        rcases List.mem_cons.mp ha with rfl | ha
        · simp [createAchievementCard, timesThousand, hn] at hx
        · exact ⟨a, ha, n, hn⟩
      simp [appendCards, hx, ih _ hrest]

/-- C6 (evaluation at the failing inputs): the ABI declares `timestamp` as
`uint256`, which arrives as a BigInt. For a target address and every list
returned by `getAchievements` that holds a record with a BigInt timestamp, the
product `achievement.timestamp * 1000` throws and the render ends in its
`catch`: the list holds the error message and no card, however many records
were returned. -/
theorem fetchAndRenderAchievements_bigint_timestamp (lib : Lib) (w : World)
    (l : List Achievement) (hr : Reachable lib w) (hT : truthy w.currentUserAddress = true)
    (hb : ∃ a ∈ l, ∃ n, a.timestamp = JsInt.bigint n) :
    (fetchAndRenderAchievements lib w (some l)).achievementsList =
      [Node.para "Error loading achievements."] ∧
    ((fetchAndRenderAchievements lib w (some l)).achievementsList.filter Node.isCard).length = 0 ∧
    0 < l.length := by
  have hC : w.contract = true := hr.contract_of_target hT
  have hne : l ≠ [] := by
    rintro rfl
    obtain ⟨a, ha, _⟩ := hb
    cases ha
  have hlen : ¬ l.length = 0 := by simpa using hne
  have hlist : (fetchAndRenderAchievements lib w (some l)).achievementsList =
      [Node.para "Error loading achievements."] := by
    simp [fetchAndRenderAchievements, renderAchievements, hT, hC, hlen,
      appendCards_bigint lib l [] hb]
  refine ⟨hlist, ?_, Nat.pos_of_ne_zero hlen⟩
  rw [hlist]
  rfl

/-- C6 (witness): two records with BigInt timestamps rendered over the restored
session of `aliceView`. -/
theorem fetchAndRenderAchievements_bigint_timestamp_witness :
    Reachable evalLib aliceView ∧ truthy aliceView.currentUserAddress = true ∧
    (fetchAndRenderAchievements evalLib aliceView
        (some [⟨"Won", "First place", JsInt.bigint 1700000000⟩,
          ⟨"Ran", "Marathon", JsInt.bigint 1700000060⟩])).achievementsList =
      [Node.para "Error loading achievements."] :=
  ⟨⟨returningPage, true, none, some [], some 1, some 2, some 3, [], rfl⟩, by decide,
   (fetchAndRenderAchievements_bigint_timestamp evalLib aliceView
      [⟨"Won", "First place", JsInt.bigint 1700000000⟩,
        ⟨"Ran", "Marathon", JsInt.bigint 1700000060⟩]
      ⟨returningPage, true, none, some [], some 1, some 2, some 3, [], rfl⟩ (by decide)
      ⟨⟨"Won", "First place", JsInt.bigint 1700000000⟩, List.mem_cons_self _ _, 1700000000,
        rfl⟩).1⟩

/-- What the loop would leave for Number timestamps with a valid date as time
value: one card per record, in the order of the list, each with the title, the
description and the time of instant `timestamp * 1000` ms; the empty-state
message for the empty list. -/
theorem fetchAndRenderAchievements_number_timestamps (lib : Lib) (w : World)
    (l : List Achievement) (hr : Reachable lib w) (hT : truthy w.currentUserAddress = true)
    (hv : ∀ a ∈ l, a.datable) :
    (fetchAndRenderAchievements lib w (some l)).achievementsList =
      (if l = [] then [Node.para "No achievements found."] else l.map (cardOf lib)) := by
  have hC : w.contract = true := hr.contract_of_target hT
  by_cases hl : l = []
  · subst hl
    simp [fetchAndRenderAchievements, renderAchievements, hT, hC]
  · have hlen : ¬ l.length = 0 := by simpa using hl
    simp [fetchAndRenderAchievements, renderAchievements, hT, hC, hl, hlen,
      appendCards_valid lib l [] hv]

/-! ## The target address over time (C9) -/

/-- With at least one registration of the wallet handlers and the listeners of
`main.js` registered, an account change to a non-empty list makes the first
account the target address. -/
theorem step_accountsChanged_target (lib : Lib) (w : World) (acct : String) (rest : List String)
    (r : Option (List Achievement)) (hv : w.viewListeners = true) (hn : 0 < w.walletListeners) :
    (step lib w (Event.accountsChanged (acct :: rest) r)).currentUserAddress = some acct := by
  have hview : ∀ k : Nat,
      (Nat.iterate (fun v => onAccountsChanged lib v (acct :: rest) r) k w).viewListeners =
        w.viewListeners := by
    intro k
    induction k with
    | zero => rfl
    | succ k ih =>
      rw [Function.iterate_succ_apply', (onAccountsChanged_fields lib _ _ r).2.1]
      exact ih
  obtain ⟨n, hw⟩ : ∃ n, w.walletListeners = n + 1 := ⟨w.walletListeners - 1, by omega⟩
  simp only [step, perRegistration, hw, Function.iterate_succ_apply']
  rw [(onAccountsChanged_fields lib _ (acct :: rest) r).2.2.2, hview n, hv]
  rfl

/-- C9 (evaluation at the failing input): in read-only mode on `bobAddress`
over a restored session, a wallet account change to `carolAddress` makes
`carolAddress` the target address and fetches her achievements, although the URL
parameter is a well-formed address; the add-achievement button stays disabled
under its read-only tooltip. -/
theorem account_change_overrides_url_target :
    validQuery evalLib (some bobAddress) = true ∧
    (init evalLib (pageLoad returningPage) true (some bobAddress) (some []) (some 1) (some 2)
        (some 3)).currentUserAddress = some (evalLib.toLowerCase bobAddress) ∧
    (run evalLib
        (init evalLib (pageLoad returningPage) true (some bobAddress) (some []) (some 1) (some 2)
          (some 3))
        [Event.accountsChanged [carolAddress] (some [])]).currentUserAddress = some carolAddress ∧
    some carolAddress ≠ some (evalLib.toLowerCase bobAddress) ∧
    (run evalLib
        (init evalLib (pageLoad returningPage) true (some bobAddress) (some []) (some 1) (some 2)
          (some 3))
        [Event.accountsChanged [carolAddress] (some [])]).trace.getLast? =
      some (Effect.getAchievements carolAddress) ∧
    (run evalLib
        (init evalLib (pageLoad returningPage) true (some bobAddress) (some []) (some 1) (some 2)
          (some 3))
        [Event.accountsChanged [carolAddress] (some [])]).addBtnDisabled = true ∧
    (run evalLib
        (init evalLib (pageLoad returningPage) true (some bobAddress) (some []) (some 1) (some 2)
          (some 3))
        [Event.accountsChanged [carolAddress] (some [])]).addBtnTitle =
      "Adding achievements disabled in read-only mode" := by
  decide

end OnchainPortfolio
